import Mathlib

/-!
Verification of the metrics-exporter script `tesla_exporter.py`.

The development shallowly embeds the parts of the script the specification
talks about: the JSON-to-metric flattener `f_iterate`, the vehicle-listing
retry loop `f_get_vehicle_id`, the token refresh routine
`f_update_access_token`, the main-loop reload/publish/staleness steps, and
the HTTP GET handler.  Python's dynamically-typed JSON values are modelled
by the inductive `Jval`; Python operations that can raise `TypeError` or
`KeyError` (the `in` membership test, subscripting, `len`, and `"%d"`
string interpolation) are modelled in `Except Unit`, with `.error ()`
standing for a raised exception.  Wall-clock times and file mtimes
(Python floats) are modelled as rationals.
-/

-- ---------------------------------------------------------------------------
-- Configuration constants (tesla_exporter.py lines 73-96)

def cfg_stale_thres : ℚ := 90
def cfg_check_interval : ℚ := 50
def cfg_drive_interval : ℚ := 25
def cfg_api_retries : Nat := 3
def cfg_retry_sleep : ℚ := 5
def cfg_metrics_prefix : String := "tesla"

-- ---------------------------------------------------------------------------
-- JSON values.  `json.loads` produces dicts, lists, floats, ints, bools,
-- strings and None.  A mutual inductive (rather than nesting `List`) keeps
-- every function below structurally recursive and kernel-computable.

mutual

inductive Jval : Type where
  | dict (fields : Jfields)
  | arr (elems : Jarr)
  | flt (q : ℚ)
  | int (n : ℤ)
  | bool (b : Bool)
  | str (s : String)
  | null

inductive Jfields : Type where
  | nil
  | cons (name : String) (val : Jval) (rest : Jfields)

inductive Jarr : Type where
  | anil
  | acons (v : Jval) (rest : Jarr)

end

/-- Python `obj is None` / `is not None` (JSON `null` parses to `None`). -/
def isNull : Jval → Bool
  | .null => true
  | _ => false

/-- First binding of a key in a parsed JSON object.  `json.loads` produces
dicts with unique keys (a duplicate key keeps only the last occurrence), so
first-match lookup agrees with Python dict lookup. -/
def dictFind : Jfields → String → Option Jval
  | .nil, _ => none
  | .cons n v rest, key => if n = key then some v else dictFind rest key

/-- Membership of a value in a parsed JSON list, as tested by Python's
`x in list` with `x` a string: true iff some element is that string. -/
def arrHasStr : Jarr → String → Bool
  | .anil, _ => false
  | .acons v rest, key =>
      (match v with
       | .str s => s = key
       | _ => false) || arrHasStr rest key

/-- Substring test, Python's `pat in s` for strings. -/
def strContains (s pat : String) : Bool :=
  (List.range (s.data.length + 1)).any fun i => pat.data.isPrefixOf (s.data.drop i)

/-- Python's `key in obj` for a string `key`.  Succeeds with a boolean for
containers (dict keys, list membership, substring of a string); raises
`TypeError` for numbers, booleans and `None`. -/
def jin (key : String) : Jval → Except Unit Bool
  | .dict fields => .ok (dictFind fields key).isSome
  | .arr elems => .ok (arrHasStr elems key)
  | .str s => .ok (strContains s key)
  | _ => .error ()

/-- Python's `obj[key]` for a string `key`.  Only a dict can be subscripted
by a string: lists and strings raise `TypeError`, a missing dict key raises
`KeyError`, everything else raises `TypeError`. -/
def jget : Jval → String → Except Unit Jval
  | .dict fields, key =>
      match dictFind fields key with
      | some v => .ok v
      | none => .error ()
  | _, _ => .error ()

def jarrLength : Jarr → Nat
  | .anil => 0
  | .acons _ rest => jarrLength rest + 1

def jfieldsLength : Jfields → Nat
  | .nil => 0
  | .cons _ _ rest => jfieldsLength rest + 1

/-- Python's `len(obj)`: defined for strings, lists and dicts; raises
`TypeError` for numbers, booleans and `None`. -/
def jlen : Jval → Except Unit Nat
  | .dict fields => .ok (jfieldsLength fields)
  | .arr elems => .ok (jarrLength elems)
  | .str s => .ok s.length
  | _ => .error ()

/-- Python's `obj[0]`: first element of a list; first character of a
non-empty string (as a one-character string); a dict produced by
`json.loads` has only string keys, so `obj[0]` raises `KeyError`; numbers,
booleans and `None` raise `TypeError`. -/
def jidx0 : Jval → Except Unit Jval
  | .arr (.acons v _) => .ok v
  | .arr .anil => .error ()
  | .str s =>
      match s.data with
      | c :: _ => .ok (.str (String.mk [c]))
      | [] => .error ()
  | _ => .error ()

/-- Python's `value == 1`: true for the int `1`, the float `1.0` and the
boolean `True` (which compares equal to `1`); false otherwise. -/
def pyEq1 : Jval → Bool
  | .int n => n = 1
  | .flt q => q = 1
  | .bool b => b
  | _ => false

/-- Python's `value == "something"` for a string literal: only a string
compares equal to a string. -/
def pyEqStr (v : Jval) (s : String) : Bool :=
  match v with
  | .str t => t = s
  | _ => false

/-- Whether `"%d" % v` succeeds in Python: it accepts ints, floats (which
are truncated) and booleans; any other operand raises `TypeError`. -/
def formattableD : Jval → Bool
  | .int _ => true
  | .flt _ => true
  | .bool _ => true
  | _ => false

-- ---------------------------------------------------------------------------
-- The flattener `f_iterate` (tesla_exporter.py lines 129-169).

/-- Python `s.lstrip(" ").rstrip(" ")`: strips leading and trailing space
characters (only `' '`, not other whitespace). -/
def stripSpaces (s : String) : String :=
  String.mk (((s.data.dropWhile (· = ' ')).reverse.dropWhile (· = ' ')).reverse)

/-- The label sanitisation at lines 161-162:
`s.replace("<","").replace(">","").replace(",","_").replace(" ","_")`.
All four patterns are single characters, so the replace chain is a filter
followed by a map. -/
def sanitize (s : String) : String :=
  String.mk ((s.data.filter fun c => !(c = '<' || c = '>')).map
    fun c => if c = ',' || c = ' ' then '_' else c)

/-- The metric name built at lines 132-135: the bare key when the running
prefix is empty, otherwise `prefix_key`. -/
def fieldName (pfx f : String) : String :=
  if pfx = "" then f else pfx ++ "_" ++ f

/-- Zero-padded six-digit decimal, for the fractional part of `"%f"`. -/
def pad6 (k : Nat) : String :=
  let s := toString k
  String.mk (List.replicate (6 - s.length) '0') ++ s

/-- Nearest integer count of millionths, `round(q * 10^6)`, computed on the
numerator and denominator directly: `⌊q·10⁶ + 1/2⌋ = ⌊(2·num·10⁶ + den) / (2·den)⌋`,
and Euclidean division by the positive `2·den` is floor division.  Models
C's `"%f"` rounding for values exactly representable in the model; exact
half-way ties (which no binary double produces at the sixth decimal) round
up here rather than to even. -/
def pyRound6 (q : ℚ) : ℤ := (2 * q.num * 1000000 + q.den).ediv (2 * q.den)

/-- Python's `"%f" % x`: six-decimal fixed format. -/
def formatFloat (q : ℚ) : String :=
  let n := pyRound6 q
  let core := fun (m : Nat) => toString (m / 1000000) ++ "." ++ pad6 (m % 1000000)
  if n < 0 then "-" ++ core n.natAbs else core n.natAbs

/-- Assignment `G_metrics_new[m] = value` on a Python dict: an existing key
keeps its position and gets the new value; a new key is appended. -/
def dictInsert (d : List (String × String)) (k v : String) : List (String × String) :=
  if d.any (fun p => p.1 = k) then
    d.map fun p => if p.1 = k then (k, v) else p
  else d ++ [(k, v)]

/-- The leaf handling of `f_iterate` (lines 141-169): compute the optional
value string and optional label by the exact runtime type, then store the
metric under `field_name` or `field_name{label}`.  Python stores the ints
`0`/`1` for booleans; they render identically to the strings `"0"`/`"1"`
under the `"%s"` formatting used everywhere downstream, so the model keeps
strings throughout. -/
def flattenLeaf (acc : List (String × String)) (field_name : String) (v : Jval) :
    List (String × String) :=
  let vl : Option String × Option String :=
    match v with
    | .flt q => (some (formatFloat q), none)
    | .int n => (some (toString n), none)
    | .bool b => (some (if b then "1" else "0"), none)
    | .str s0 =>
        let s := stripSpaces s0
        if s.length > 0 then (some "1", some ("value=\"" ++ sanitize s ++ "\"")) else (none, none)
    | _ => (none, none)
  match vl with
  | (none, _) => acc
  | (some value, label) =>
      let m := match label with
        | none => field_name
        | some lab => field_name ++ "\x7b" ++ lab ++ "\x7d"
      dictInsert acc m value

mutual

/-- One field value inside `f_iterate`'s loop: recurse into nested dicts
(line 137-138), otherwise handle the leaf (lines 139-169). -/
def flattenVal (v : Jval) (field_name : String) (acc : List (String × String)) :
    List (String × String) :=
  match v with
  | .dict inner => f_iterate inner field_name acc
  | leaf => flattenLeaf acc field_name leaf

/-- `f_iterate(obj, prefix)` over the fields of a dict, threading the
accumulated metric map `G_metrics_new` explicitly. -/
def f_iterate (fields : Jfields) (pfx : String) (acc : List (String × String)) :
    List (String × String) :=
  match fields with
  | .nil => acc
  | .cons f v rest => f_iterate rest pfx (flattenVal v (fieldName pfx f) acc)

end

-- ---------------------------------------------------------------------------
-- Token refresh `f_update_access_token` (tesla_exporter.py lines 224-257).

/-- The two token files.  `f_save_data` renders the written value with
`"%s"`; the model records the JSON value handed to it. -/
structure TokenStore where
  access : Jval
  refresh : Jval

/-- Outcome of the POST to the auth endpoint:
`none` = `urlopen` raised (transport failure or non-2xx status);
`some none` = a 2xx response whose body `json.loads` cannot parse;
`some (some obj)` = a 2xx response parsed to `obj` (`.null` when the body
is the JSON literal `null`, which Python represents as `None`). -/
abbrev HttpOutcome := Option (Option Jval)

/-- `f_update_access_token`, acting on the stored tokens.  `.error ()` is a
raised `TypeError`: the membership test `"access_token" in obj` raises on a
number or boolean body, and the subscripts `obj["access_token"]` /
`obj["refresh_token"]` raise on a string or list body that passed both
membership tests.  Every non-raising path that does not reach the two
`f_save_data` calls leaves the store untouched. -/
def f_update_access_token (store : TokenStore) (resp : HttpOutcome) :
    Except Unit TokenStore :=
  match resp with
  | none => .ok store
  | some none => .ok store
  | some (some obj) =>
      if isNull obj then .ok store
      else
        match jin "access_token" obj with
        | .error e => .error e
        | .ok false => .ok store
        | .ok true =>
            match jin "refresh_token" obj with
            | .error e => .error e
            | .ok false => .ok store
            | .ok true =>
                match jget obj "access_token" with
                | .error e => .error e
                | .ok a =>
                    match jget obj "refresh_token" with
                    | .error e => .error e
                    | .ok r => .ok ⟨a, r⟩

-- ---------------------------------------------------------------------------
-- Vehicle listing `f_get_vehicle_id` (tesla_exporter.py lines 273-321).

/-- The record built at lines 315-317. -/
structure Vehicle where
  id : Jval
  state : Jval

/-- The shape acceptance at lines 306-319, mirroring the short-circuit
`and` chain conjunct by conjunct, starting with `obj is not None`: a body
that parses to JSON `null` (Python `None`) fails the first conjunct, so it
is a failed attempt, not a raise.  `.ok none` means the condition came out
false (a failed attempt: fall through to the retry sleep); `.ok (some v)`
means the vehicle record is returned; `.error ()` means one of the Python
operations raised.  The final guard models the success-path log line
`"NOTICE: found vehicle id %d (%s)"`, whose `"%d"` interpolation raises
`TypeError` unless the id is numeric. -/
def checkVehicleResponse (obj : Jval) : Except Unit (Option Vehicle) :=
  if isNull obj then .ok none
  else
  match jin "count" obj with
  | .error e => .error e
  | .ok false => .ok none
  | .ok true =>
      match jget obj "count" with
      | .error e => .error e
      | .ok c =>
          if pyEq1 c then
            match jin "response" obj with
            | .error e => .error e
            | .ok false => .ok none
            | .ok true =>
                match jget obj "response" with
                | .error e => .error e
                | .ok r =>
                    if isNull r then .ok none
                    else
                      match jlen r with
                      | .error e => .error e
                      | .ok l =>
                          if l = 1 then
                            match jidx0 r with
                            | .error e => .error e
                            | .ok r0 =>
                                match jin "id" r0 with
                                | .error e => .error e
                                | .ok false => .ok none
                                | .ok true =>
                                    match jin "state" r0 with
                                    | .error e => .error e
                                    | .ok false => .ok none
                                    | .ok true =>
                                        match jget r0 "state" with
                                        | .error e => .error e
                                        | .ok st =>
                                            if isNull st then .ok none
                                            else
                                              match jget r0 "id" with
                                              | .error e => .error e
                                              | .ok i =>
                                                  if formattableD i then .ok (some ⟨i, st⟩)
                                                  else .error ()
                          else .ok none
          else .ok none

/-- Outcome of one `urlopen` of the vehicles endpoint:
`fail` = the call raised (transport failure or non-2xx status, both turned
into `resp = None` by the bare `except`); `ok body` = a 2xx response whose
body parsed to `body` (`none` when `json.loads` raised). -/
inductive Attempt where
  | fail
  | ok (body : Option Jval)

def Attempt.isFail : Attempt → Bool
  | .fail => true
  | _ => false

/-- The external world seen by `f_get_vehicle_id`: per loop iteration, the
result of reading the access-token file and the outcome of the HTTP call. -/
structure ApiEnv where
  token : Nat → Option String
  attempt : Nat → Attempt

/-- How one call of `f_get_vehicle_id` ended. -/
inductive CallResult where
  | vehicle (v : Vehicle)
  | noVehicle
  | crashed

def CallResult.isNoVehicle : CallResult → Bool
  | .noVehicle => true
  | _ => false

def CallResult.isCrashed : CallResult → Bool
  | .crashed => true
  | _ => false

/-- Observable trace of one `f_get_vehicle_id` call: its result, how many
times `f_update_access_token` ran, how many `time.sleep(cfg_retry_sleep)`
pauses ran, and how many HTTP attempts were issued. -/
structure ApiCallTrace where
  result : CallResult
  refreshes : Nat
  sleeps : Nat
  attempts : Nat

/-- The `while (retries > 0)` loop of `f_get_vehicle_id` (lines 275-321),
with the remaining `retries` as fuel and `k` the iteration index.  Reading
the token file fails → immediate `return None` (line 279).  A raised
`urlopen` (`resp is None`) → `f_update_access_token()` then sleep and
retry.  A parsed-or-not 2xx body goes through the acceptance chain: accept
→ return the record; condition false → sleep and retry with NO token
refresh; a raised Python operation → the exception propagates. -/
def f_get_vehicle_id_go (env : ApiEnv) (k refreshes sleeps attempts : Nat) :
    Nat → ApiCallTrace
  | 0 => ⟨.noVehicle, refreshes, sleeps, attempts⟩
  | retries + 1 =>
      match env.token k with
      | none => ⟨.noVehicle, refreshes, sleeps, attempts⟩
      | some _ =>
          match env.attempt k with
          | .fail =>
              f_get_vehicle_id_go env (k + 1) (refreshes + 1) (sleeps + 1) (attempts + 1) retries
          | .ok none =>
              f_get_vehicle_id_go env (k + 1) refreshes (sleeps + 1) (attempts + 1) retries
          | .ok (some obj) =>
              match checkVehicleResponse obj with
              | .error _ => ⟨.crashed, refreshes, sleeps, attempts + 1⟩
              | .ok (some v) => ⟨.vehicle v, refreshes, sleeps, attempts + 1⟩
              | .ok none =>
                  f_get_vehicle_id_go env (k + 1) refreshes (sleeps + 1) (attempts + 1) retries

def f_get_vehicle_id (env : ApiEnv) : ApiCallTrace :=
  f_get_vehicle_id_go env 0 0 0 0 cfg_api_retries

/-- An attempt that the loop treats as failed (it neither returns a record
nor raises): the HTTP call raised, the body did not parse, or the parsed
body flunked the acceptance condition. -/
def failedAttempt (env : ApiEnv) (k : Nat) : Bool :=
  match env.attempt k with
  | .fail => true
  | .ok none => true
  | .ok (some obj) =>
      match checkVehicleResponse obj with
      | .ok none => true
      | _ => false

/-- Number of raising HTTP calls (`resp is None`) among `fuel` iterations
starting at index `k`: exactly the iterations that run the token refresh. -/
def countFails (env : ApiEnv) (k : Nat) : Nat → Nat
  | 0 => 0
  | n + 1 => (if (env.attempt k).isFail then 1 else 0) + countFails env (k + 1) n

-- ---------------------------------------------------------------------------
-- Main-loop steps (tesla_exporter.py lines 498-586).

/-- `f_get_file_age` (lines 174-181): the file's mtime, or `-1` when
`os.stat` raises. -/
def f_get_file_age (statResult : Option ℚ) : ℚ :=
  match statResult with
  | none => -1
  | some mtime => mtime

/-- The interval selection at lines 559-567, run after a publish:
`poll_freq` is reset to `cfg_check_interval` and switched to
`cfg_drive_interval` only when `response.drive_state.shift_state` exists,
is non-null and equals `"D"`.  The membership test
`"shift_state" in obj["response"]["drive_state"]` raises `TypeError` when
the `drive_state` value is a number, boolean or null; the subscript
`["shift_state"]` raises when `drive_state` is a string or list that
passed the membership test. -/
def selectInterval (resp : Jfields) : Except Unit ℚ :=
  match jin "drive_state" (.dict resp) with
  | .error e => .error e
  | .ok false => .ok cfg_check_interval
  | .ok true =>
      match jget (.dict resp) "drive_state" with
      | .error e => .error e
      | .ok ds =>
          match jin "shift_state" ds with
          | .error e => .error e
          | .ok false => .ok cfg_check_interval
          | .ok true =>
              match jget ds "shift_state" with
              | .error e => .error e
              | .ok ss =>
                  if isNull ss then .ok cfg_check_interval
                  else if pyEqStr ss "D" then .ok cfg_drive_interval
                  else .ok cfg_check_interval

/-- The reload-and-publish step of the main loop (lines 538-567), given the
current published metrics, the recorded `G_last_load`, the current
`poll_freq`, this cycle's file age and the result of `f_load_json`.
Returns the new `(G_metrics_cur, G_last_load, poll_freq)`; `.error ()` is a
raised `TypeError` (the process would die).  The flattener runs on
`obj["response"]` with prefix `cfg_metrics_prefix`, and its result is
published only when it holds more than one entry (line 553). -/
def reloadStep (cur : Option (List (String × String))) (last_load poll_freq age : ℚ)
    (loadResult : Option Jval) : Except Unit (Option (List (String × String)) × ℚ × ℚ) :=
  if age > last_load then
    match loadResult with
    | none => .ok (cur, last_load, poll_freq)
    | some obj =>
        if isNull obj then .ok (cur, last_load, poll_freq)
        else
          match jin "response" obj with
          | .error e => .error e
          | .ok false => .ok (cur, last_load, poll_freq)
          | .ok true =>
              match jget obj "response" with
              | .error e => .error e
              | .ok r =>
                  if isNull r then .ok (cur, last_load, poll_freq)
                  else
                    match jin "state" r with
                    | .error e => .error e
                    | .ok false => .ok (cur, last_load, poll_freq)
                    | .ok true =>
                        match jget r "state" with
                        | .error e => .error e
                        | .ok st =>
                            if isNull st then .ok (cur, last_load, poll_freq)
                            else if pyEqStr st "online" then
                              match r with
                              | .dict fields =>
                                  let entries := f_iterate fields cfg_metrics_prefix []
                                  if entries.length > 1 then
                                    match selectInterval fields with
                                    | .error e => .error e
                                    | .ok freq => .ok (some entries, age, freq)
                                  else .ok (cur, last_load, poll_freq)
                              | _ => .error ()
                            else .ok (cur, last_load, poll_freq)
  else .ok (cur, last_load, poll_freq)

/-- The staleness check at lines 569-573: clear `G_metrics_cur` when it is
set and `time.time() - age` strictly exceeds the threshold. -/
def stalenessStep (cur : Option (List (String × String))) (now age : ℚ) :
    Option (List (String × String)) :=
  if cur ≠ none ∧ now - age > cfg_stale_thres then none else cur

-- ---------------------------------------------------------------------------
-- The web server's GET handler (tesla_exporter.py lines 442-478).

/-- Python `"%d" % q` for a float: truncation toward zero. -/
def qtruncD (q : ℚ) : ℤ := q.num.tdiv q.den

/-- The `/metrics` body construction at lines 473-476: start from the empty
string and append `"%s %s\n"` per entry of `G_metrics_cur`, in stored
order; the empty string when `G_metrics_cur` is `None`. -/
def metricsBody : Option (List (String × String)) → String
  | none => ""
  | some entries => entries.foldl (fun buf p => buf ++ p.1 ++ " " ++ p.2 ++ "\n") ""

/-- `c_webserver.do_GET`, returning (status code, body written).  The
`/healthz` route compares `time.time() - G_last_loop` against twice the
check interval; any path other than `/healthz` and `/metrics` gets a 404
with no body; `/metrics` always gets a 200 and the snapshot dump. -/
def do_GET (now last_loop : ℚ) (cur : Option (List (String × String))) (path : String) :
    Nat × String :=
  if path = "/healthz" then
    if now - last_loop > cfg_check_interval * 2 then
      (500, "ERR last_loop:" ++ toString (qtruncD (now - last_loop)) ++ " secs ago\n")
    else
      (200, "OK last_loop:" ++ toString (qtruncD (now - last_loop)) ++ " secs ago\n")
  else if path ≠ "/metrics" then (404, "")
  else (200, metricsBody cur)

-- ---------------------------------------------------------------------------
-- Concrete objects and derived predicates used by the theorems below

/-- Concrete response used to exercise the publish path. -/
def goodReloadObj : Jval :=
  .dict (.cons "response"
    (.dict (.cons "state" (.str "online") (.cons "battery_level" (.int 67) .nil))) .nil)

mutual

/-- Leaves the flattener emits nothing for: null and lists, plus any
nested object all of whose leaves are such. -/
def valUnrecognized : Jval → Bool
  | .dict inner => allUnrecognized inner
  | .arr _ => true
  | .null => true
  | _ => false

def allUnrecognized : Jfields → Bool
  | .nil => true
  | .cons _ v rest => valUnrecognized v && allUnrecognized rest

end

/-- Environment where every HTTP call raises. -/
def envAllFail : ApiEnv := ⟨fun _ => some "token", fun _ => .fail⟩

/-- Environment where every HTTP call yields a 2xx body of the wrong
shape: first the JSON literal `null` (Python `None`, failing the
`obj is not None` conjunct), then unparsable garbage, then the empty JSON
object. -/
def envWrongShape : ApiEnv :=
  ⟨fun _ => some "token",
   fun k => if k = 0 then .ok (some .null)
            else if k = 1 then .ok none
            else .ok (some (.dict .nil))⟩

/-- A well-shaped vehicles response: one vehicle with numeric id and
non-null state. -/
def goodVehicleObj : Jval :=
  .dict (.cons "count" (.int 1)
    (.cons "response"
      (.arr (.acons
        (.dict (.cons "id" (.int 42) (.cons "state" (.str "online") .nil))) .anil)) .nil))

-- ---------------------------------------------------------------------------
-- Helper lemmas

/-- Folding string append from any seed prepends the seed to the join. -/
lemma foldl_append_eq_join (xs : List String) :
    ∀ b : String, xs.foldl (fun r s => r ++ s) b = b ++ String.join xs := by
  induction xs with
  | nil => intro b; simp [String.join]
  | cons x xs ih =>
      intro b
      have hx : String.join (x :: xs) = x ++ String.join xs := by
        show List.foldl (fun r s => r ++ s) ("" ++ x) xs = x ++ String.join xs
        rw [String.empty_append, ih x]
      rw [hx]
      show List.foldl (fun r s => r ++ s) (b ++ x) xs = b ++ (x ++ String.join xs)
      rw [ih (b ++ x), String.append_assoc]

/-- The `/metrics` body is the concatenation of one newline-terminated
line per entry, in stored order. -/
lemma metricsBody_some (es : List (String × String)) :
    metricsBody (some es) =
      String.join (es.map fun p => p.1 ++ " " ++ p.2 ++ "\n") := by
  show es.foldl (fun buf p => buf ++ p.1 ++ " " ++ p.2 ++ "\n") "" = _
  have h : ∀ (l : List (String × String)) (b : String),
      l.foldl (fun buf p => buf ++ p.1 ++ " " ++ p.2 ++ "\n") b =
        b ++ String.join (l.map fun p => p.1 ++ " " ++ p.2 ++ "\n") := by
    intro l
    induction l with
    | nil => intro b; simp [String.join]
    | cons p l ih =>
        intro b
        have hx : String.join ((p.1 ++ " " ++ p.2 ++ "\n") ::
            l.map fun q => q.1 ++ " " ++ q.2 ++ "\n") =
            (p.1 ++ " " ++ p.2 ++ "\n") ++
              String.join (l.map fun q => q.1 ++ " " ++ q.2 ++ "\n") := by
          show List.foldl (fun r s => r ++ s) ("" ++ (p.1 ++ " " ++ p.2 ++ "\n")) _ = _
          rw [String.empty_append, foldl_append_eq_join]
        simp only [List.map_cons, List.foldl_cons, hx]
        rw [ih (b ++ p.1 ++ " " ++ p.2 ++ "\n")]
        simp [String.append_assoc]
  rw [h es "", String.empty_append]

-- ---------------------------------------------------------------------------
-- Claim C4

/-- Claim C4: on each poll cycle, a published snapshot is cleared exactly
when `now` minus the recorded age strictly exceeds the staleness threshold
(90s); in particular at age `now - 91` with threshold 90 the snapshot is
cleared to absent, and at age `now - 89` it survives unchanged. -/
theorem c4_staleness_invalidation :
    (∀ (cur : Option (List (String × String))) (now age : ℚ),
      stalenessStep cur now age = if now - age > cfg_stale_thres then none else cur) ∧
    (∀ (m : List (String × String)) (now : ℚ),
      stalenessStep (some m) now (now - 91) = none ∧
      stalenessStep (some m) now (now - 89) = some m) := by
  constructor
  · intro cur now age
    cases cur with
    | none => simp [stalenessStep]
    | some m => simp [stalenessStep]
  · intro m now
    constructor
    · simp only [stalenessStep, cfg_stale_thres]
      rw [if_pos]
      exact ⟨by simp, by linarith⟩
    · simp only [stalenessStep, cfg_stale_thres]
      rw [if_neg]
      intro h
      linarith [h.2]

-- ---------------------------------------------------------------------------
-- Claim C10

/-- Claim C10: when `os.stat` of the vehicle-data cache fails during a
cycle, `f_get_file_age` returns `-1`; the newer-file comparison then never
triggers a reload (every previously recorded load age is itself `-1` or a
non-negative mtime, so `-1` exceeds none of them), and the staleness check
compares `now - (-1)`, which exceeds the 90s threshold for any real clock
value, so any published snapshot is cleared that same cycle. -/
theorem c10_stat_failure_behavior
    (cur : Option (List (String × String))) (last_load poll_freq now : ℚ)
    (loadResult : Option Jval)
    (hload : last_load ≥ -1) (hnow : now ≥ cfg_stale_thres) :
    f_get_file_age none = -1 ∧
    ¬ f_get_file_age none > last_load ∧
    reloadStep cur last_load poll_freq (f_get_file_age none) loadResult =
      .ok (cur, last_load, poll_freq) ∧
    stalenessStep cur now (f_get_file_age none) = none := by
  have hage : f_get_file_age none = -1 := rfl
  have hng : ¬ f_get_file_age none > last_load := by
    rw [hage]; intro h; linarith
  refine ⟨hage, hng, ?_, ?_⟩
  · rw [reloadStep.eq_def, if_neg hng]
  · have hth : now - f_get_file_age none > cfg_stale_thres := by
      rw [hage]
      have : cfg_stale_thres = 90 := rfl
      linarith [hnow]
    cases cur with
    | none => simp [stalenessStep]
    | some m => simp [stalenessStep, hth]

/-- Witness for C10 at a concrete cycle: a snapshot acquired moments
earlier, a recorded load age of 5, wall clock 100. -/
theorem c10_stat_failure_behavior_witness :
    f_get_file_age none = -1 ∧
    ¬ f_get_file_age none > (5 : ℚ) ∧
    reloadStep (some [("tesla_a", "1"), ("tesla_b", "2")]) 5 50 (f_get_file_age none) none =
      .ok (some [("tesla_a", "1"), ("tesla_b", "2")], 5, 50) ∧
    stalenessStep (some [("tesla_a", "1"), ("tesla_b", "2")]) 100 (f_get_file_age none) = none :=
  c10_stat_failure_behavior (some [("tesla_a", "1"), ("tesla_b", "2")]) 5 50 100 none
    (by norm_num) (by rw [cfg_stale_thres]; norm_num)

-- ---------------------------------------------------------------------------
-- Claim C8

/-- Claim C8 (amended): for every internal state, `GET /metrics` responds
with status 200 — never an error status — and its plain-text body is the
concatenation of one newline-TERMINATED line `"<name> <value>\n"` per
entry of the published snapshot in stored order (each line carries a
trailing newline, rather than the lines being newline-joined), and the
empty string when no snapshot is published. -/
theorem c8_metrics_endpoint :
    ∀ (now last_loop : ℚ) (cur : Option (List (String × String))),
      (do_GET now last_loop cur "/metrics").1 = 200 ∧
      (do_GET now last_loop cur "/metrics").2 =
        (match cur with
         | none => ""
         | some es => String.join (es.map fun p => p.1 ++ " " ++ p.2 ++ "\n")) := by
  intro now ll cur
  have hpath : (do_GET now ll cur "/metrics") = (200, metricsBody cur) := by
    rw [do_GET, if_neg (by decide), if_neg (by decide)]
  rw [hpath]
  refine ⟨rfl, ?_⟩
  cases cur with
  | none => rfl
  | some es => exact metricsBody_some es

/-- Counterexample to C8 as stated: with one published entry the body is
`"tesla_a 1\n"`, which is not the newline-JOINED line `"tesla_a 1"` — the
handler appends a newline after every line instead of between lines. -/
theorem c8_newline_join_counterexample :
    (do_GET 0 0 (some [("tesla_a", "1")]) "/metrics").1 = 200 ∧
    (do_GET 0 0 (some [("tesla_a", "1")]) "/metrics").2 = "tesla_a 1\n" ∧
    String.intercalate "\n" ([("tesla_a", "1")].map fun p => p.1 ++ " " ++ p.2) = "tesla_a 1" ∧
    (do_GET 0 0 (some [("tesla_a", "1")]) "/metrics").2 ≠
      String.intercalate "\n" ([("tesla_a", "1")].map fun p => p.1 ++ " " ++ p.2) := by
  refine ⟨?_, ?_, ?_, ?_⟩ <;> decide

-- ---------------------------------------------------------------------------
-- Claim C3

/-- Claim C3: the reload step never publishes a snapshot with fewer than 2
entries: whatever the cycle's inputs, a non-raising pass either leaves the
published snapshot and the recorded load age exactly as they were, or
publishes the freshly flattened entry set — and then that set has more
than one entry and the recorded load age advances to the new file age. -/
theorem c3_publish_guard :
    ∀ (cur : Option (List (String × String))) (last_load poll_freq age : ℚ)
      (loadResult : Option Jval) (res : Option (List (String × String)) × ℚ × ℚ),
      reloadStep cur last_load poll_freq age loadResult = .ok res →
      (res.1 = cur ∧ res.2.1 = last_load) ∨
      (∃ fields, res.1 = some (f_iterate fields cfg_metrics_prefix []) ∧
        (f_iterate fields cfg_metrics_prefix []).length > 1 ∧ res.2.1 = age) := by
  intro cur ll pf age lr res
  rw [reloadStep.eq_def]
  by_cases hage : age > ll
  case neg => rw [if_neg hage]; intro h; cases h; exact Or.inl ⟨rfl, rfl⟩
  case pos =>
  rw [if_pos hage]
  cases lr with
  | none => intro h; cases h; exact Or.inl ⟨rfl, rfl⟩
  | some obj =>
  dsimp only
  by_cases hnull : isNull obj = true
  case pos => rw [if_pos hnull]; intro h; cases h; exact Or.inl ⟨rfl, rfl⟩
  case neg =>
  rw [if_neg hnull]
  cases hjin : jin "response" obj with
  | error e => intro h; exact Except.noConfusion h
  | ok b =>
  cases b with
  | false => intro h; cases h; exact Or.inl ⟨rfl, rfl⟩
  | true =>
  dsimp only
  cases hjget : jget obj "response" with
  | error e => intro h; exact Except.noConfusion h
  | ok r =>
  dsimp only
  by_cases hrnull : isNull r = true
  case pos => rw [if_pos hrnull]; intro h; cases h; exact Or.inl ⟨rfl, rfl⟩
  case neg =>
  rw [if_neg hrnull]
  cases hjs : jin "state" r with
  | error e => intro h; exact Except.noConfusion h
  | ok b2 =>
  cases b2 with
  | false => intro h; cases h; exact Or.inl ⟨rfl, rfl⟩
  | true =>
  dsimp only
  cases hst : jget r "state" with
  | error e => intro h; exact Except.noConfusion h
  | ok st =>
  dsimp only
  by_cases hstn : isNull st = true
  case pos => rw [if_pos hstn]; intro h; cases h; exact Or.inl ⟨rfl, rfl⟩
  case neg =>
  rw [if_neg hstn]
  by_cases hon : pyEqStr st "online" = true
  case neg => rw [if_neg hon]; intro h; cases h; exact Or.inl ⟨rfl, rfl⟩
  case pos =>
  rw [if_pos hon]
  cases r with
  | dict fields =>
      dsimp only
      by_cases hlen : (f_iterate fields cfg_metrics_prefix []).length > 1
      case neg => rw [if_neg hlen]; intro h; cases h; exact Or.inl ⟨rfl, rfl⟩
      case pos =>
      rw [if_pos hlen]
      cases hsel : selectInterval fields with
      | error e => intro h; exact Except.noConfusion h
      | ok freq => intro h; cases h; exact Or.inr ⟨fields, rfl, hlen, rfl⟩
  | arr elems => intro h; exact Except.noConfusion h
  | flt q => intro h; exact Except.noConfusion h
  | int n => intro h; exact Except.noConfusion h
  | bool b3 => intro h; exact Except.noConfusion h
  | str s => intro h; exact Except.noConfusion h
  | null => intro h; exact Except.noConfusion h

/-- Witness for C3: a cycle whose fresh flatten yields two entries
publishes them and advances the load age. -/
theorem c3_publish_guard_witness :
    ((some [("tesla_state\x7bvalue=\"online\"\x7d", "1"), ("tesla_battery_level", "67")],
        (10 : ℚ), (50 : ℚ)).1 = none ∧
      (some [("tesla_state\x7bvalue=\"online\"\x7d", "1"), ("tesla_battery_level", "67")],
        (10 : ℚ), (50 : ℚ)).2.1 = (0 : ℚ)) ∨
    (∃ fields,
      (some [("tesla_state\x7bvalue=\"online\"\x7d", "1"), ("tesla_battery_level", "67")],
        (10 : ℚ), (50 : ℚ)).1 = some (f_iterate fields cfg_metrics_prefix []) ∧
      (f_iterate fields cfg_metrics_prefix []).length > 1 ∧
      (some [("tesla_state\x7bvalue=\"online\"\x7d", "1"), ("tesla_battery_level", "67")],
        (10 : ℚ), (50 : ℚ)).2.1 = (10 : ℚ)) :=
  c3_publish_guard none 0 50 10 (some goodReloadObj) _ rfl

-- ---------------------------------------------------------------------------
-- Claim C5

lemma brace_assoc (a b : String) :
    a ++ "\x7b" ++ ("value=\"" ++ b ++ "\"") ++ "\x7d" =
      a ++ "\x7bvalue=\"" ++ b ++ "\"\x7d" := by
  have h1 : "\x7bvalue=\"" = "\x7b" ++ "value=\"" := rfl
  have h2 : "\"\x7d" = "\"" ++ "\x7d" := rfl
  conv_rhs => rw [h1, h2]
  simp only [String.append_assoc]

/-- Claim C1 (amended): the flattener formats every leaf by exact type —
a float in six-decimal fixed format, an int as a plain decimal, a boolean
as `"1"` / `"0"`, and a string that is non-empty after trimming
surrounding SPACE characters as value `"1"` with the key extended to
`name{value="sanitized"}`, where sanitisation drops `<` and `>` and turns
commas and spaces into underscores; a string that trims to empty, a null,
or a list emits no entry.  Only literal spaces are trimmed: a
whitespace-only string made of tabs or newlines still emits an entry. -/
theorem c1_flattener_leaf_formats :
    ∀ (pfx f : String),
      (∀ q : ℚ, f_iterate (.cons f (.flt q) .nil) pfx [] =
        [(fieldName pfx f, formatFloat q)]) ∧
      (∀ n : ℤ, f_iterate (.cons f (.int n) .nil) pfx [] =
        [(fieldName pfx f, toString n)]) ∧
      (∀ b : Bool, f_iterate (.cons f (.bool b) .nil) pfx [] =
        [(fieldName pfx f, if b then "1" else "0")]) ∧
      (∀ s : String, f_iterate (.cons f (.str s) .nil) pfx [] =
        if (stripSpaces s).length > 0 then
          [(fieldName pfx f ++ "\x7bvalue=\"" ++ sanitize (stripSpaces s) ++ "\"\x7d", "1")]
        else []) ∧
      f_iterate (.cons f .null .nil) pfx [] = [] ∧
      (∀ elems, f_iterate (.cons f (.arr elems) .nil) pfx [] = []) ∧
      f_iterate (.cons "a" (.flt (mkRat 7 2)) .nil) "tesla" [] = [("tesla_a", "3.500000")] ∧
      f_iterate (.cons "a" (.int 7) .nil) "tesla" [] = [("tesla_a", "7")] ∧
      f_iterate (.cons "a" (.str "<invalid>") .nil) "tesla" [] =
        [("tesla_a\x7bvalue=\"invalid\"\x7d", "1")] ∧
      f_iterate (.cons "a" (.str "") .nil) "tesla" [] = [] := by
  intro pfx f
  refine ⟨?_, ?_, ?_, ?_, ?_, ?_, by decide, by decide, by decide, by decide⟩
  · intro q; simp [f_iterate, flattenVal, flattenLeaf, dictInsert]
  · intro n; simp [f_iterate, flattenVal, flattenLeaf, dictInsert]
  · intro b; cases b <;> simp [f_iterate, flattenVal, flattenLeaf, dictInsert]
  · intro s
    by_cases hs : (stripSpaces s).length > 0 <;>
      simp [f_iterate, flattenVal, flattenLeaf, dictInsert, hs,
        brace_assoc (fieldName pfx f) (sanitize (stripSpaces s))]
  · simp [f_iterate, flattenVal, flattenLeaf]
  · intro elems; simp [f_iterate, flattenVal, flattenLeaf]

/-- Counterexample to C1 as stated: the tab-only string is whitespace-only,
so the claim requires no entry, but `lstrip(" ").rstrip(" ")` strips only
spaces — the code emits the entry `p_a{value="<tab>"} 1`. -/
theorem c1_whitespace_counterexample :
    ("\t".data.all Char.isWhitespace = true) ∧
    f_iterate (.cons "a" (.str "\t") .nil) "p" [] = [("p_a\x7bvalue=\"\t\"\x7d", "1")] ∧
    f_iterate (.cons "a" (.str "\t") .nil) "p" [] ≠ [] := by
  refine ⟨?_, ?_, ?_⟩ <;> decide

-- ---------------------------------------------------------------------------
-- Claim C9

mutual

theorem flattenVal_unrecognized (v : Jval) (fn : String) (acc : List (String × String))
    (h : valUnrecognized v = true) : flattenVal v fn acc = acc :=
  match v with
  | .dict inner => f_iterate_unrecognized inner fn acc h
  | .arr _ => rfl
  | .null => rfl
  | .flt _ => by simp [valUnrecognized] at h
  | .int _ => by simp [valUnrecognized] at h
  | .bool _ => by simp [valUnrecognized] at h
  | .str _ => by simp [valUnrecognized] at h

theorem f_iterate_unrecognized (fields : Jfields) (pfx : String)
    (acc : List (String × String)) (h : allUnrecognized fields = true) :
    f_iterate fields pfx acc = acc :=
  match fields with
  | .nil => rfl
  | .cons f v rest => by
      rw [allUnrecognized, Bool.and_eq_true] at h
      show f_iterate rest pfx (flattenVal v (fieldName pfx f) acc) = acc
      rw [flattenVal_unrecognized v (fieldName pfx f) acc h.1]
      exact f_iterate_unrecognized rest pfx acc h.2

end

/-- Claim C9: the flattener is total — in this model it is a plain
terminating function on every well-formed JSON tree — and every leaf
whose type is not float, int, bool or recognized string is omitted rather
than an error: a tree all of whose leaves are nulls or lists (at any
nesting depth) contributes nothing, and in particular null-valued and
list-valued fields produce no entry. -/
theorem c9_flattener_total_omission :
    (∀ (fields : Jfields) (pfx : String) (acc : List (String × String)),
      allUnrecognized fields = true → f_iterate fields pfx acc = acc) ∧
    f_iterate (.cons "a" .null (.cons "b" (.arr (.acons (.int 1) .anil)) .nil)) "p" [] = [] := by
  refine ⟨?_, by decide⟩
  intro fields pfx acc h
  exact f_iterate_unrecognized fields pfx acc h

/-- Witness for C9: a nested object whose leaves are all null or lists
flattens to the unchanged accumulator. -/
theorem c9_flattener_total_omission_witness :
    f_iterate (.cons "outer" (.dict (.cons "x" .null (.cons "y" (.arr .anil) .nil)))
        (.cons "z" .null .nil)) "tesla" [("kept", "1")] = [("kept", "1")] :=
  c9_flattener_total_omission.1 _ "tesla" [("kept", "1")] (by decide)

-- ---------------------------------------------------------------------------
-- Claim C2

/-- The attempt count of the retry loop never exceeds the fuel it starts
with. -/
lemma go_attempts_le (env : ApiEnv) :
    ∀ (fuel k r s a : Nat), (f_get_vehicle_id_go env k r s a fuel).attempts ≤ a + fuel := by
  intro fuel
  induction fuel with
  | zero => intro k r s a; simp [f_get_vehicle_id_go]
  | succ n ih =>
      intro k r s a
      cases htk : env.token k with
      | none => simp [f_get_vehicle_id_go, htk]
      | some t =>
          cases hat : env.attempt k with
          | fail =>
              simp only [f_get_vehicle_id_go, htk, hat]
              have := ih (k + 1) (r + 1) (s + 1) (a + 1)
              omega
          | ok body =>
              cases body with
              | none =>
                  simp only [f_get_vehicle_id_go, htk, hat]
                  have := ih (k + 1) r (s + 1) (a + 1)
                  omega
              | some obj =>
                  cases hcv : checkVehicleResponse obj with
                  | error e => simp [f_get_vehicle_id_go, htk, hat, hcv]
                  | ok o =>
                      cases o with
                      | none =>
                          simp only [f_get_vehicle_id_go, htk, hat, hcv]
                          have := ih (k + 1) r (s + 1) (a + 1)
                          omega
                      | some v => simp [f_get_vehicle_id_go, htk, hat, hcv]

/-- When the token file always reads and every attempt in the window fails
without raising, the loop runs through its whole fuel, returns no vehicle,
sleeps once per attempt, and refreshes the token exactly once per RAISING
attempt (`resp is None`), never for a wrong-shape 2xx body. -/
lemma go_all_failed (env : ApiEnv) :
    ∀ (fuel k r s a : Nat),
      (∀ j, j < fuel → (env.token (k + j)).isSome = true ∧ failedAttempt env (k + j) = true) →
      f_get_vehicle_id_go env k r s a fuel =
        ⟨.noVehicle, r + countFails env k fuel, s + fuel, a + fuel⟩ := by
  intro fuel
  induction fuel with
  | zero => intro k r s a h; simp [f_get_vehicle_id_go, countFails]
  | succ n ih =>
      intro k r s a h
      obtain ⟨htok, hfail⟩ := h 0 (Nat.succ_pos n)
      rw [Nat.add_zero] at htok hfail
      have hshift : ∀ j, j < n →
          (env.token (k + 1 + j)).isSome = true ∧ failedAttempt env (k + 1 + j) = true := by
        intro j hj
        have h2 := h (j + 1) (by omega)
        rwa [show k + (j + 1) = k + 1 + j by omega] at h2
      cases htk : env.token k with
      | none => rw [htk] at htok; exact absurd htok (by simp)
      | some t =>
          cases hat : env.attempt k with
          | fail =>
              simp only [f_get_vehicle_id_go, htk, hat]
              rw [ih (k + 1) (r + 1) (s + 1) (a + 1) hshift]
              have hcf : countFails env k (n + 1) = 1 + countFails env (k + 1) n := by
                simp [countFails, hat, Attempt.isFail]
              rw [hcf]
              simp only [ApiCallTrace.mk.injEq]
              and_intros <;> first | trivial | omega
          | ok body =>
              have hb : failedAttempt env k = true := hfail
              cases body with
              | none =>
                  simp only [f_get_vehicle_id_go, htk, hat]
                  rw [ih (k + 1) r (s + 1) (a + 1) hshift]
                  have hcf : countFails env k (n + 1) = countFails env (k + 1) n := by
                    simp [countFails, hat, Attempt.isFail]
                  rw [hcf]
                  simp only [ApiCallTrace.mk.injEq]
                  and_intros <;> first | trivial | omega
              | some obj =>
                  have hcv : checkVehicleResponse obj = .ok none := by
                    have hb2 := hb
                    simp only [failedAttempt, hat] at hb2
                    cases hx : checkVehicleResponse obj with
                    | error e => rw [hx] at hb2; simp at hb2
                    | ok o =>
                        cases o with
                        | none => rfl
                        | some v => rw [hx] at hb2; simp at hb2
                  simp only [f_get_vehicle_id_go, htk, hat, hcv]
                  rw [ih (k + 1) r (s + 1) (a + 1) hshift]
                  have hcf : countFails env k (n + 1) = countFails env (k + 1) n := by
                    simp [countFails, hat, Attempt.isFail]
                  rw [hcf]
                  simp only [ApiCallTrace.mk.injEq]
                  and_intros <;> first | trivial | omega

/-- Claim C2 (amended): `f_get_vehicle_id` makes at most the configured 3
attempts; when the access-token file reads and every attempt fails without
raising, it returns None (no vehicle) after exactly 3 attempts with one
inter-retry sleep per failed attempt, and the number of token refreshes
equals the number of attempts whose HTTP call RAISED (transport failure or
non-2xx status) — a 2xx response that is unparsable or of the wrong shape
is a failed attempt but triggers NO token refresh. -/
theorem c2_retry_refresh :
    (∀ env : ApiEnv, (f_get_vehicle_id env).attempts ≤ cfg_api_retries) ∧
    (∀ env : ApiEnv,
      (∀ j, j < cfg_api_retries →
        (env.token j).isSome = true ∧ failedAttempt env j = true) →
      (f_get_vehicle_id env).result = .noVehicle ∧
      (f_get_vehicle_id env).refreshes = countFails env 0 cfg_api_retries ∧
      (f_get_vehicle_id env).sleeps = cfg_api_retries ∧
      (f_get_vehicle_id env).attempts = cfg_api_retries) := by
  constructor
  · intro env
    have h := go_attempts_le env cfg_api_retries 0 0 0 0
    simpa [f_get_vehicle_id] using h
  · intro env h
    have hgo : f_get_vehicle_id env =
        ⟨.noVehicle, 0 + countFails env 0 cfg_api_retries,
          0 + cfg_api_retries, 0 + cfg_api_retries⟩ :=
      go_all_failed env cfg_api_retries 0 0 0 0 (by intro j hj; simpa using h j hj)
    rw [hgo]
    exact ⟨rfl, by simp, by simp, by simp⟩

/-- Witness for C2: three raising attempts exhaust the retries, return no
vehicle, and refresh the token once per raising attempt. -/
theorem c2_retry_refresh_witness :
    (f_get_vehicle_id envAllFail).result = .noVehicle ∧
    (f_get_vehicle_id envAllFail).refreshes = countFails envAllFail 0 cfg_api_retries ∧
    (f_get_vehicle_id envAllFail).sleeps = cfg_api_retries ∧
    (f_get_vehicle_id envAllFail).attempts = cfg_api_retries :=
  c2_retry_refresh.2 envAllFail (by decide)

/-- Counterexample to C2 as stated: three wrong-shape 2xx responses (a
JSON null body, an unparsable body, an empty object) are three failed
attempts, yet the code performs ZERO token refreshes — the refresh happens
only when `urlopen` itself raised, contradicting "exactly as many
token-refresh attempts as failed attempts". -/
theorem c2_wrong_shape_counterexample :
    (f_get_vehicle_id envWrongShape).result.isNoVehicle = true ∧
    (f_get_vehicle_id envWrongShape).attempts = 3 ∧
    (f_get_vehicle_id envWrongShape).sleeps = 3 ∧
    (f_get_vehicle_id envWrongShape).refreshes = 0 ∧
    (f_get_vehicle_id envWrongShape).refreshes ≠ (f_get_vehicle_id envWrongShape).attempts := by
  refine ⟨?_, ?_, ?_, ?_, ?_⟩ <;> decide

-- ---------------------------------------------------------------------------
-- Claim C6

/-- Claim C6: an attempt of `f_get_vehicle_id` returns a vehicle record
only when the response reports exactly one vehicle — its `count` compares
equal to 1 and its `response` list has length 1 — whose id is non-null
(the success log's `"%d"` would raise on anything non-numeric) and whose
state is non-null; every response violating any of these conditions yields
no record from that attempt. -/
theorem c6_accept_exactly_one_vehicle :
    ∀ (obj : Jval) (v : Vehicle),
      checkVehicleResponse obj = .ok (some v) →
      (∃ c, jget obj "count" = .ok c ∧ pyEq1 c = true) ∧
      (∃ r, jget obj "response" = .ok r ∧ jlen r = .ok 1) ∧
      v.id ≠ Jval.null ∧ v.state ≠ Jval.null := by
  intro obj v
  rw [checkVehicleResponse.eq_def]
  by_cases h0 : isNull obj = true
  case pos => rw [if_pos h0]; intro h; injection h with h2; exact Option.noConfusion h2
  case neg =>
  rw [if_neg h0]
  cases h1 : jin "count" obj with
  | error e => intro h; exact Except.noConfusion h
  | ok b1 =>
  cases b1 with
  | false => intro h; injection h with h2; exact Option.noConfusion h2
  | true =>
  dsimp only
  cases h2 : jget obj "count" with
  | error e => intro h; exact Except.noConfusion h
  | ok c =>
  dsimp only
  by_cases hc : pyEq1 c = true
  case neg => rw [if_neg hc]; intro h; injection h with h3; exact Option.noConfusion h3
  case pos =>
  rw [if_pos hc]
  cases h3 : jin "response" obj with
  | error e => intro h; exact Except.noConfusion h
  | ok b2 =>
  cases b2 with
  | false => intro h; injection h with h4; exact Option.noConfusion h4
  | true =>
  dsimp only
  cases h4 : jget obj "response" with
  | error e => intro h; exact Except.noConfusion h
  | ok r =>
  dsimp only
  by_cases hr : isNull r = true
  case pos => rw [if_pos hr]; intro h; injection h with h5; exact Option.noConfusion h5
  case neg =>
  rw [if_neg hr]
  cases h5 : jlen r with
  | error e => intro h; exact Except.noConfusion h
  | ok l =>
  dsimp only
  by_cases hl : l = 1
  case neg => rw [if_neg hl]; intro h; injection h with h6; exact Option.noConfusion h6
  case pos =>
  rw [if_pos hl]
  cases h6 : jidx0 r with
  | error e => intro h; exact Except.noConfusion h
  | ok r0 =>
  dsimp only
  cases h7 : jin "id" r0 with
  | error e => intro h; exact Except.noConfusion h
  | ok b3 =>
  cases b3 with
  | false => intro h; injection h with h8; exact Option.noConfusion h8
  | true =>
  dsimp only
  cases h8 : jin "state" r0 with
  | error e => intro h; exact Except.noConfusion h
  | ok b4 =>
  cases b4 with
  | false => intro h; injection h with h9; exact Option.noConfusion h9
  | true =>
  dsimp only
  cases h9 : jget r0 "state" with
  | error e => intro h; exact Except.noConfusion h
  | ok st =>
  dsimp only
  by_cases hst : isNull st = true
  case pos => rw [if_pos hst]; intro h; injection h with h10; exact Option.noConfusion h10
  case neg =>
  rw [if_neg hst]
  cases h10 : jget r0 "id" with
  | error e => intro h; exact Except.noConfusion h
  | ok i =>
  dsimp only
  by_cases hi : formattableD i = true
  case neg => rw [if_neg hi]; intro h; exact Except.noConfusion h
  case pos =>
  rw [if_pos hi]
  intro h
  injection h with h11
  injection h11 with h12
  subst h12
  refine ⟨⟨c, rfl, hc⟩, ⟨r, rfl, ?_⟩, ?_, ?_⟩
  · rw [h5, hl]
  · intro hnull
    have hid : i = Jval.null := hnull
    rw [hid] at hi
    exact absurd hi (by decide)
  · intro hnull
    have hs2 : st = Jval.null := hnull
    apply hst
    rw [hs2]
    rfl

/-- Witness for C6 at the well-shaped response. -/
theorem c6_accept_exactly_one_vehicle_witness :
    (∃ c, jget goodVehicleObj "count" = .ok c ∧ pyEq1 c = true) ∧
    (∃ r, jget goodVehicleObj "response" = .ok r ∧ jlen r = .ok 1) ∧
    (Vehicle.mk (.int 42) (.str "online")).id ≠ Jval.null ∧
    (Vehicle.mk (.int 42) (.str "online")).state ≠ Jval.null :=
  c6_accept_exactly_one_vehicle goodVehicleObj ⟨.int 42, .str "online"⟩ rfl

-- ---------------------------------------------------------------------------
-- Claim C7

/-- Claim C7 (amended): the refresh routine persists tokens only when the
auth response parses to a JSON OBJECT carrying both `access_token` and
`refresh_token` fields, and then it writes both as a pair; a transport
failure, an unparsable body, a null body, or an object body missing either
field leaves the stored tokens untouched and raises nothing.  Not covered
by the claim as stated: a body that parses to a bare number (or boolean)
raises `TypeError` in the membership test instead of being left-untouched
silently. -/
theorem c7_token_refresh :
    ∀ store : TokenStore,
      f_update_access_token store none = .ok store ∧
      f_update_access_token store (some none) = .ok store ∧
      f_update_access_token store (some (some .null)) = .ok store ∧
      (∀ fs a r, dictFind fs "access_token" = some a →
        dictFind fs "refresh_token" = some r →
        f_update_access_token store (some (some (.dict fs))) = .ok ⟨a, r⟩) ∧
      (∀ fs, dictFind fs "access_token" = none ∨ dictFind fs "refresh_token" = none →
        f_update_access_token store (some (some (.dict fs))) = .ok store) ∧
      (∀ n : ℤ, f_update_access_token store (some (some (.int n))) = .error ()) := by
  intro store
  refine ⟨rfl, rfl, rfl, ?_, ?_, fun n => rfl⟩
  · intro fs a r ha hr
    simp [f_update_access_token, isNull, jin, jget, ha, hr]
  · intro fs hor
    rcases hor with h | h
    · simp [f_update_access_token, isNull, jin, h]
    · cases hacc : dictFind fs "access_token" with
      | none => simp [f_update_access_token, isNull, jin, hacc]
      | some a => simp [f_update_access_token, isNull, jin, jget, hacc, h]

/-- Witness for C7: a well-formed object body with both fields replaces
the stored pair. -/
theorem c7_token_refresh_witness :
    f_update_access_token ⟨.str "oldA", .str "oldR"⟩
        (some (some (.dict (.cons "access_token" (.str "newA")
          (.cons "refresh_token" (.str "newR") .nil))))) =
      .ok ⟨.str "newA", .str "newR"⟩ :=
  (c7_token_refresh ⟨.str "oldA", .str "oldR"⟩).2.2.2.1
    (.cons "access_token" (.str "newA") (.cons "refresh_token" (.str "newR") .nil))
    (.str "newA") (.str "newR") rfl rfl

/-- Counterexample to C7 as stated: a 2xx auth response whose body is the
bare JSON number `5` is "a body missing either field", so the claim
requires the tokens to stay untouched with no error; the code instead
raises `TypeError` evaluating `"access_token" in obj`. -/
theorem c7_numeric_body_counterexample :
    f_update_access_token ⟨.str "oldA", .str "oldR"⟩ (some (some (.int 5))) = .error () ∧
    f_update_access_token ⟨.str "oldA", .str "oldR"⟩ (some (some (.int 5))) ≠
      .ok ⟨.str "oldA", .str "oldR"⟩ :=
  ⟨rfl, fun h => Except.noConfusion h⟩
